import Mathlib

/-!
Shallow embedding of the `pager` relay (src/main.py): a bidirectional
message relay between a chat platform (Telegram) and a helpdesk platform
("Pager").  Pure data flow is modelled directly; the effects of each
handler (store operations, chat sends, notifications, log lines) are
returned explicitly as data.
-/

namespace Pager

/-! ## Python-semantics helpers -/

/-- Python whitespace characters recognised by `str.strip()`. -/
def is_py_space (c : Char) : Bool :=
  c = ' ' || c = '\t' || c = '\n' || c = '\r' || c = '\x0b' || c = '\x0c'

/-- Embedding of Python `s.strip()`: drop whitespace from both ends. -/
def pyStrip (s : String) : String :=
  String.mk (((s.data.dropWhile is_py_space).reverse.dropWhile is_py_space).reverse)

/-- Embedding of Python `opt or d` for an optional string: `None` and the
empty string are falsy and fall through to the default. -/
def py_or_str : Option String → String → String
  | none, d => d
  | some s, d => if s = "" then d else s

/-! ## Identity mapping store (src/main.py lines 40-70)

The sqlite table `map(client_external_id TEXT PRIMARY KEY, tg_chat_id
INTEGER NOT NULL)` is modelled as an association list with at most the
semantics the two queries exercise: keyed insert-or-replace and point
lookup on the primary key. -/

abbrev Store := List (String × Int)

/-- Embedding of `upsert_map`: `INSERT ... ON CONFLICT(client_external_id)
DO UPDATE SET tg_chat_id=excluded.tg_chat_id` — replace the row with this
primary key if present, otherwise insert it. -/
def upsert_map : Store → String → Int → Store
  | [], k, v => [(k, v)]
  | (k', v') :: rest, k, v =>
    if k' = k then (k, v) :: rest else (k', v') :: upsert_map rest k v

/-- Embedding of `get_chat_id`: `SELECT tg_chat_id FROM map WHERE
client_external_id=?` with `int(row[0]) if row else None`. -/
def get_chat_id : Store → String → Option Int
  | [], _ => none
  | (k', v) :: rest, k => if k' = k then some v else get_chat_id rest k

/-! ## Outbound dispatcher (src/main.py lines 73-80)

`pager_post` performs `requests.post(PAGER_URL, json=payload,
headers=..., timeout=15)`.  The HTTP call's outcome is an input to the
embedding: either a response (status, body) or a raised exception (e.g.
`requests.exceptions.Timeout` after the 15 s bound).  The function body
only inspects `r.status_code`; an exception raised by `requests.post`
is not caught and propagates, which the embedding renders as
`Except.error`.  The normal return carries the list of log lines printed. -/

inductive RequestOutcome where
  | response (status : Nat) (body : String)
  | raised (e : String)
deriving DecidableEq

/-- The `timeout=15` argument passed to `requests.post`. -/
def pager_post_timeout_seconds : Nat := 15

/-- Embedding of `pager_post`, parameterised by the outcome of the HTTP
call. A raised exception propagates; a response with status ≥ 400 is
logged (body truncated to 800 characters) and swallowed. -/
def pager_post (r : RequestOutcome) : Except String (List String) :=
  match r with
  | .raised e => .error e
  | .response status body =>
    if status ≥ 400 then
      .ok ["Pager inbound error: " ++ toString status ++ " " ++ body.take 800]
    else
      .ok []

/-! ## Identifier derivations (src/main.py lines 83-88) -/

/-- Embedding of `client_external_id_from_user`. -/
def client_external_id_from_user (user_id : Int) : String :=
  "tg_user:" ++ toString user_id

/-- Embedding of `message_external_id`. -/
def message_external_id (user_id chat_id message_id : Int) : String :=
  "tg_msg:" ++ toString user_id ++ ":" ++ toString chat_id ++ ":" ++ toString message_id

/-! ## Telegram update model and inbound handler (src/main.py lines 97-138) -/

structure TgUser where
  id : Int
  full_name : String
deriving DecidableEq

structure TgChat where
  id : Int
  type : String
deriving DecidableEq

structure TgMessage where
  message_id : Int
  text : Option String
  caption : Option String
deriving DecidableEq

structure TgUpdate where
  message : Option TgMessage
  effective_chat : Option TgChat
  effective_user : Option TgUser
deriving DecidableEq

structure NotifyClient where
  externalId : String
  name : Option String
deriving DecidableEq

structure NotifyMessage where
  externalId : String
  direction : String
  text : String
  attachments : List String
deriving DecidableEq

/-- The notification payload built by `on_user_message` and handed to
`pager_post`.  A `name` of `none` models the key popped from the dict. -/
structure Notification where
  event : String
  client : NotifyClient
  message : NotifyMessage
deriving DecidableEq

/-- Embedding of `on_user_message`: given the current store and the
update, returns the store after any upsert together with the list of
notifications posted to the helpdesk platform (each early `return`
yields the unchanged store and no notification). -/
def on_user_message (store : Store) (update : TgUpdate) : Store × List Notification :=
  match update.message with
  | none => (store, [])
  | some msg =>
    match update.effective_chat, update.effective_user with
    | some chat, some user =>
      if chat.type ≠ "private" then (store, [])
      else
        let text := py_or_str msg.text (py_or_str msg.caption "")
        if pyStrip text = "" then (store, [])
        else
          let c_ext := client_external_id_from_user user.id
          let store' := upsert_map store c_ext chat.id
          let name := pyStrip (py_or_str (some user.full_name) "")
          let payload : Notification :=
            { event := "message.created"
              client := { externalId := c_ext
                          name := if name = "" then none else some name }
              message := { externalId := message_external_id user.id chat.id msg.message_id
                           direction := "incoming"
                           text := text
                           attachments := [] } }
          (store', [payload])
    | _, _ => (store, [])

/-! ## Telegram webhook endpoint (src/main.py lines 161-173)

The body parses the request and runs `tg_app.process_update` inside a
`try`/`except Exception` that logs and falls through to `return
{"ok": True}`.  The embedding takes the outcome of that body (success,
or the exception it raised) as input and returns the JSON response
together with the log lines printed. -/

structure TgWebhookResponse where
  ok : Bool
deriving DecidableEq

/-- Embedding of `telegram_webhook`: whatever parsing/processing did,
the response is `{ok: true}`; a raised exception is only logged. -/
def telegram_webhook (processing : Except String Unit) :
    TgWebhookResponse × List String :=
  match processing with
  | .ok _ => (⟨true⟩, [])
  | .error e => (⟨true⟩, ["WEBHOOK ERROR: " ++ e])

/-! ## Reply payload model and outbound handler (src/main.py lines 179-219) -/

structure AttachmentPayload where
  url : Option String
deriving DecidableEq

/-- One entry of `message.attachments`; `payload` is the nested dict
(`none` models an absent or null `payload` key). -/
structure Attachment where
  payload : Option AttachmentPayload
deriving DecidableEq

/-- A JSON scalar as far as `pagerMessageId` is concerned: `null`, a
string, or a number; used to model Python string formatting of the
value. -/
inductive PVal where
  | null
  | str (s : String)
  | num (n : Int)
deriving DecidableEq

/-- Python `str()` of the value, as used by the f-string. -/
def pystr : PVal → String
  | .null => "None"
  | .str s => s
  | .num n => toString n

structure ReplyClient where
  externalId : Option String
deriving DecidableEq

structure ReplyMessage where
  text : Option String
  attachments : Option (List Attachment)
  pagerMessageId : Option PVal
deriving DecidableEq

structure ReplyPayload where
  event : Option String
  client : Option ReplyClient
  message : Option ReplyMessage
deriving DecidableEq

/-- `msg_obj.get('pagerMessageId', '')` rendered by the f-string: the
empty string when the key is absent, otherwise `str()` of the value. -/
def pager_msg_fallback (m : ReplyMessage) : String :=
  match m.pagerMessageId with
  | none => ""
  | some v => pystr v

/-- `url = (a.get("payload") or {}).get("url")` followed by the truthiness
test `if url:` — skip an absent, null or empty url. -/
def attachment_url (a : Attachment) : Option String :=
  match a.payload with
  | none => none
  | some p =>
    match p.url with
    | none => none
    | some u => if u = "" then none else some u

/-- The `urls` loop: `for a in attachments[:20]: ... if url:
urls.append(url)` — only the first 20 entries are examined. -/
def collect_urls (attachments : List Attachment) : List String :=
  (attachments.take 20).filterMap attachment_url

/-- A chat message sent through `tg_app.bot.send_message`, together with
the platform-assigned id of the resulting message object. -/
structure SentMessage where
  chat_id : Int
  text : String
  message_id : Int
deriving DecidableEq

/-- The HTTP result of the handler: a JSON body with `externalMessageId`,
or a raised `HTTPException(status_code, detail)`. -/
inductive HandlerResult where
  | ok (externalMessageId : String)
  | httpError (status : Nat) (detail : String)
deriving DecidableEq

/-- A mapping-store operation performed by a handler. -/
inductive StoreOp where
  | lookup (k : String)
  | upsertOp (k : String) (v : Int)
deriving DecidableEq

structure OutboundResult where
  result : HandlerResult
  sends : List SentMessage
  storeOps : List StoreOp
deriving DecidableEq

/-- Python truthiness of `chat_id` after `get_chat_id`: `None` and `0`
are falsy. -/
def py_not_opt_int : Option Int → Bool
  | none => true
  | some v => v == 0

/-- Embedding of `pager_outbound`.  Inputs: the configured
`PAGER_CHANNEL_KEY`, the `x-channel-key` header (`none` models the
`Header(None)` default when absent), the parsed JSON payload, the store,
and the message ids the chat platform would assign to the text send and
to the attachment send.  Output: the HTTP result, the chat messages
sent, and the store operations performed, in order. -/
def pager_outbound (pager_key : String) (x_channel_key : Option String)
    (payload : ReplyPayload) (store : Store) (text_msg_id att_msg_id : Int) :
    OutboundResult :=
  if x_channel_key ≠ some pager_key then
    ⟨.httpError 401 "bad x-channel-key", [], []⟩
  else if payload.event ≠ some "message.created" then
    ⟨.ok "ignored", [], []⟩
  else
    let client_obj := payload.client.getD ⟨none⟩
    let msg_obj := payload.message.getD ⟨none, none, none⟩
    match client_obj.externalId with
    | none => ⟨.httpError 400 "missing client.externalId", [], []⟩
    | some c_ext =>
      if c_ext = "" then ⟨.httpError 400 "missing client.externalId", [], []⟩
      else
        let chat_id? := get_chat_id store c_ext
        if py_not_opt_int chat_id? then
          ⟨.httpError 400 "unknown client.externalId (no mapping yet)", [], [.lookup c_ext]⟩
        else
          let chat_id := chat_id?.getD 0
          let text := pyStrip (py_or_str msg_obj.text "")
          let attachments := msg_obj.attachments.getD []
          let sent_msg0 : Option Int := if text = "" then none else some text_msg_id
          let urls := collect_urls attachments
          let sent_msg : Option Int :=
            if urls = [] then sent_msg0 else some (sent_msg0.getD att_msg_id)
          let external_id :=
            match sent_msg with
            | some m => "bot:" ++ toString chat_id ++ ":" ++ toString m
            | none => "pager:" ++ pager_msg_fallback msg_obj
          let sends :=
            (if text = "" then [] else [SentMessage.mk chat_id text text_msg_id]) ++
            (if urls = [] then []
             else [SentMessage.mk chat_id (String.intercalate "\n" urls) att_msg_id])
          ⟨.ok external_id, sends, [.lookup c_ext]⟩

/-- `True` exactly when the call returned normally (did not raise). -/
def returns_normally (r : Except String (List String)) : Bool :=
  match r with
  | .ok _ => true
  | .error _ => false

/-! ## Theorems -/

/-- Claim C4 (confirmed): for every key, chat id and prior store state,
`upsert_map` followed by `get_chat_id` on the same key returns exactly
the just-written chat id — at most one chat id per key, latest write
wins. -/
theorem C4_upsert_then_lookup (store : Store) (k : String) (v : Int) :
    get_chat_id (upsert_map store k v) k = some v := by
  induction store with
  | nil => simp [upsert_map, get_chat_id]
  | cons p rest ih =>
    obtain ⟨k', v'⟩ := p
    by_cases h : k' = k
    · simp [upsert_map, get_chat_id, h]
    · simp [upsert_map, get_chat_id, h, ih]

/-- Claim C5 (confirmed): a reply-webhook request whose `x-channel-key`
header differs from the configured channel key (including an absent
header) yields a 401 error, sends nothing, and performs no store
operation. -/
theorem C5_bad_key_unauthorized (pager_key : String) (hdr : Option String)
    (payload : ReplyPayload) (store : Store) (tid aid : Int)
    (h : hdr ≠ some pager_key) :
    pager_outbound pager_key hdr payload store tid aid =
      ⟨.httpError 401 "bad x-channel-key", [], []⟩ := by
  unfold pager_outbound
  rw [if_pos h]

theorem C5_witness :
    pager_outbound "secret" none ⟨some "message.created", some ⟨some "c"⟩, none⟩ [("c", 5)] 1 2 =
      ⟨.httpError 401 "bad x-channel-key", [], []⟩ :=
  C5_bad_key_unauthorized "secret" none ⟨some "message.created", some ⟨some "c"⟩, none⟩
    [("c", 5)] 1 2 (by decide)

/-- Claim C6 (confirmed): an authenticated `message.created` reply with a
present, non-empty `client.externalId` that has no mapping in the store
yields a 400 error and sends no chat message (only a lookup is
performed). -/
theorem C6_unmapped_client_400 (pager_key c : String) (store : Store)
    (m : Option ReplyMessage) (tid aid : Int)
    (hc : c ≠ "") (hmap : get_chat_id store c = none) :
    pager_outbound pager_key (some pager_key)
        ⟨some "message.created", some ⟨some c⟩, m⟩ store tid aid =
      ⟨.httpError 400 "unknown client.externalId (no mapping yet)", [], [.lookup c]⟩ := by
  unfold pager_outbound
  simp [hc, hmap, py_not_opt_int]

theorem C6_witness :
    pager_outbound "secret" (some "secret")
        ⟨some "message.created", some ⟨some "tg_user:1"⟩, none⟩ [] 1 2 =
      ⟨.httpError 400 "unknown client.externalId (no mapping yet)", [], [.lookup "tg_user:1"]⟩ :=
  C6_unmapped_client_400 "secret" "tg_user:1" [] none 1 2 (by decide) (by decide)

/-- Claim C10 (confirmed): when the store maps the client's external id to
chat id 0, the reply handler behaves exactly as when no mapping exists:
400 "unknown client" and no chat send, despite the record being present
(`if not chat_id` treats 0 as falsy). -/
theorem C10_zero_chat_id_like_unmapped (pager_key c : String) (store : Store)
    (m : Option ReplyMessage) (tid aid : Int)
    (hc : c ≠ "") (hmap : get_chat_id store c = some 0) :
    pager_outbound pager_key (some pager_key)
        ⟨some "message.created", some ⟨some c⟩, m⟩ store tid aid =
      ⟨.httpError 400 "unknown client.externalId (no mapping yet)", [], [.lookup c]⟩ := by
  unfold pager_outbound
  simp [hc, hmap, py_not_opt_int]

theorem C10_witness :
    pager_outbound "secret" (some "secret")
        ⟨some "message.created", some ⟨some "tg_user:9"⟩,
         some ⟨some "hi", none, none⟩⟩ [("tg_user:9", 0)] 1 2 =
      ⟨.httpError 400 "unknown client.externalId (no mapping yet)", [], [.lookup "tg_user:9"]⟩ :=
  C10_zero_chat_id_like_unmapped "secret" "tg_user:9" [("tg_user:9", 0)]
    (some ⟨some "hi", none, none⟩) 1 2 (by decide) (by decide)

/-- Claim C7 (confirmed): whatever the outcome of parsing and processing
the inbound chat webhook body — success or any raised exception — the
handler returns the fixed acknowledgment `{ok: true}`; a failure is only
logged. -/
theorem C7_webhook_always_ok (processing : Except String Unit) :
    (telegram_webhook processing).1 = ⟨true⟩ := by
  cases processing <;> rfl

/-- Claim C8 (confirmed): a private-chat message from user `N` in chat `C`
with message id `M` whose text (or caption fallback) is non-whitespace
upserts `("tg_user:" ++ N, C)` and produces exactly one notification with
direction "incoming", empty attachments, and external id
`"tg_msg:" ++ N ++ ":" ++ C ++ ":" ++ M`. -/
theorem C8_private_text_message (store : Store) (N C M : Int)
    (t cap : Option String) (nm : String)
    (h : pyStrip (py_or_str t (py_or_str cap "")) ≠ "") :
    let r := on_user_message store
      ⟨some ⟨M, t, cap⟩, some ⟨C, "private"⟩, some ⟨N, nm⟩⟩
    r.1 = upsert_map store ("tg_user:" ++ toString N) C ∧
    r.2.length = 1 ∧
    ∀ p ∈ r.2,
      p.event = "message.created" ∧
      p.client.externalId = "tg_user:" ++ toString N ∧
      p.message.direction = "incoming" ∧
      p.message.attachments = ([] : List String) ∧
      p.message.externalId =
        "tg_msg:" ++ toString N ++ ":" ++ toString C ++ ":" ++ toString M := by
  unfold on_user_message
  simp [client_external_id_from_user, message_external_id, h]

theorem C8_witness :
    let r := on_user_message []
      ⟨some ⟨3, some "hello", none⟩, some ⟨7, "private"⟩, some ⟨42, "Bob"⟩⟩
    r.1 = upsert_map [] ("tg_user:" ++ toString (42 : Int)) 7 ∧
    r.2.length = 1 ∧
    ∀ p ∈ r.2,
      p.event = "message.created" ∧
      p.client.externalId = "tg_user:" ++ toString (42 : Int) ∧
      p.message.direction = "incoming" ∧
      p.message.attachments = ([] : List String) ∧
      p.message.externalId =
        "tg_msg:" ++ toString (42 : Int) ++ ":" ++ toString (7 : Int) ++ ":" ++
          toString (3 : Int) :=
  C8_private_text_message [] 42 7 3 (some "hello") none "Bob" (by decide)

/-- Claim C2 (corrected, counterexample): the claim says a timeout of the
outbound POST is logged and swallowed, with `pager_post` returning
normally; in fact the raised `requests.exceptions.Timeout` is not caught
by `pager_post` and propagates. -/
theorem C2_counterexample :
    returns_normally (pager_post (RequestOutcome.raised "requests.exceptions.Timeout")) =
      false := rfl

/-- Claim C2 (corrected): `requests.post` is called with `timeout=15`,
but a timeout — like any exception raised by the call — propagates out of
`pager_post` to its caller; only an HTTP response with status ≥ 400 is
logged (with the body truncated to 800 characters) and swallowed. -/
theorem C2_amended_timeout_propagates (e : String) (status : Nat) (body : String)
    (h : 400 ≤ status) :
    pager_post (RequestOutcome.raised e) = Except.error e ∧
    pager_post (RequestOutcome.response status body) =
      Except.ok ["Pager inbound error: " ++ toString status ++ " " ++ body.take 800] ∧
    pager_post_timeout_seconds = 15 := by
  refine ⟨rfl, ?_, rfl⟩
  simp [pager_post, h]

theorem C2_witness :
    pager_post (RequestOutcome.raised "requests.exceptions.Timeout") =
      Except.error "requests.exceptions.Timeout" ∧
    pager_post (RequestOutcome.response 500 "oops") =
      Except.ok ["Pager inbound error: " ++ toString (500 : Nat) ++ " " ++
        String.take "oops" 800] ∧
    pager_post_timeout_seconds = 15 :=
  C2_amended_timeout_propagates "requests.exceptions.Timeout" 500 "oops" (by decide)

/-- Claim C1 (corrected, counterexample): with both a non-empty text and
an attachment URL (assigned ids 10 for the text send and 11 for the
attachment send), two messages are sent but the response id is
`"bot:5:10"` — the text message's id — not `"bot:5:11"` as the claim's
preference for the attachment id would require. -/
theorem C1_counterexample :
    (pager_outbound "k" (some "k")
        ⟨some "message.created", some ⟨some "c"⟩,
         some ⟨some "hi", some [⟨some ⟨some "http://u"⟩⟩], none⟩⟩
        [("c", 5)] 10 11).sends.length = 2 ∧
    (pager_outbound "k" (some "k")
        ⟨some "message.created", some ⟨some "c"⟩,
         some ⟨some "hi", some [⟨some ⟨some "http://u"⟩⟩], none⟩⟩
        [("c", 5)] 10 11).result = HandlerResult.ok "bot:5:10" ∧
    HandlerResult.ok "bot:5:10" ≠ HandlerResult.ok "bot:5:11" := by
  decide

/-- Claim C1 (corrected): when both a text message and an attachment
message are sent, the response `externalMessageId` is
`"bot:<chat_id>:<id>"` where `<id>` is the platform-assigned id of the
TEXT message — the text message's id is preferred over the attachment
message's id (`sent_msg = sent2 if not sent_msg else sent_msg` keeps the
already-set text message). -/
theorem C1_amended_text_id_preferred (pager_key c : String) (store : Store)
    (t : Option String) (atts : Option (List Attachment)) (pmi : Option PVal)
    (v tid aid : Int)
    (hc : c ≠ "") (hmap : get_chat_id store c = some v) (hv : v ≠ 0)
    (ht : pyStrip (py_or_str t "") ≠ "")
    (hu : collect_urls (atts.getD []) ≠ []) :
    pager_outbound pager_key (some pager_key)
        ⟨some "message.created", some ⟨some c⟩, some ⟨t, atts, pmi⟩⟩ store tid aid =
      ⟨.ok ("bot:" ++ toString v ++ ":" ++ toString tid),
       [⟨v, pyStrip (py_or_str t ""), tid⟩,
        ⟨v, String.intercalate "\n" (collect_urls (atts.getD [])), aid⟩],
       [.lookup c]⟩ := by
  unfold pager_outbound
  simp [hc, hmap, hv, ht, hu, py_not_opt_int]

theorem C1_witness :
    pager_outbound "k" (some "k")
        ⟨some "message.created", some ⟨some "c"⟩,
         some ⟨some "hi", some [⟨some ⟨some "http://u"⟩⟩], none⟩⟩ [("c", 5)] 10 11 =
      ⟨.ok ("bot:" ++ toString (5 : Int) ++ ":" ++ toString (10 : Int)),
       [⟨5, pyStrip (py_or_str (some "hi") ""), 10⟩,
        ⟨5, String.intercalate "\n"
          (collect_urls ((some [⟨some ⟨some "http://u"⟩⟩] : Option (List Attachment)).getD [])),
         11⟩],
       [.lookup "c"]⟩ :=
  C1_amended_text_id_preferred "k" "c" [("c", 5)] (some "hi")
    (some [⟨some ⟨some "http://u"⟩⟩]) none 5 10 11
    (by decide) (by decide) (by decide) (by decide) (by decide)

/-- Claim C3 (corrected, counterexample): 21 attachments, the first
without a URL and the remaining 20 each carrying one; entry 20 (the 21st)
has url "u20", yet only 19 URLs are collected and "u20" is not among
them — entries beyond the first 20 are never considered. -/
theorem C3_counterexample :
    let atts : List Attachment :=
      Attachment.mk none ::
        (List.range 20).map (fun i => ⟨some ⟨some ("u" ++ toString (i + 1))⟩⟩)
    atts.length = 21 ∧
    attachment_url (atts.getD 20 ⟨none⟩) = some "u20" ∧
    (collect_urls atts).length = 19 ∧
    "u20" ∉ collect_urls atts := by
  decide

/-- Claim C3 (corrected): the handler examines only the first 20
attachment ENTRIES, collecting each present `payload.url` among them
(so at most 20 URLs, and possibly fewer even when later entries carry
URLs); if any URLs were collected they are sent as one newline-joined
chat message, and this send happens whether or not a text message was
sent. -/
theorem C3_amended_first_20_entries (pager_key c : String) (store : Store)
    (t : Option String) (atts : Option (List Attachment)) (pmi : Option PVal)
    (v tid aid : Int)
    (hc : c ≠ "") (hmap : get_chat_id store c = some v) (hv : v ≠ 0) :
    (pager_outbound pager_key (some pager_key)
        ⟨some "message.created", some ⟨some c⟩, some ⟨t, atts, pmi⟩⟩ store tid aid).sends =
      (if pyStrip (py_or_str t "") = "" then []
       else [⟨v, pyStrip (py_or_str t ""), tid⟩]) ++
      (if collect_urls (atts.getD []) = [] then []
       else [⟨v, String.intercalate "\n" (collect_urls (atts.getD [])), aid⟩]) ∧
    (collect_urls (atts.getD [])).length ≤ 20 ∧
    collect_urls (atts.getD []) = collect_urls ((atts.getD []).take 20) := by
  refine ⟨?_, ?_, ?_⟩
  · unfold pager_outbound
    simp [hc, hmap, hv, py_not_opt_int]
  · calc (collect_urls (atts.getD [])).length
        ≤ ((atts.getD []).take 20).length := List.length_filterMap_le _ _
      _ ≤ 20 := by simp [List.length_take]
  · simp [collect_urls, List.take_take]

theorem C3_witness :
    (pager_outbound "k" (some "k")
        ⟨some "message.created", some ⟨some "c"⟩,
         some ⟨none, some [⟨some ⟨some "http://u"⟩⟩], none⟩⟩ [("c", 5)] 10 11).sends =
      (if pyStrip (py_or_str none "") = "" then []
       else [⟨5, pyStrip (py_or_str none ""), 10⟩]) ++
      (if collect_urls ((some [⟨some ⟨some "http://u"⟩⟩] : Option (List Attachment)).getD [])
          = [] then []
       else [⟨5, String.intercalate "\n"
          (collect_urls ((some [⟨some ⟨some "http://u"⟩⟩] : Option (List Attachment)).getD [])),
         11⟩]) ∧
    (collect_urls ((some [⟨some ⟨some "http://u"⟩⟩] : Option (List Attachment)).getD [])).length
      ≤ 20 ∧
    collect_urls ((some [⟨some ⟨some "http://u"⟩⟩] : Option (List Attachment)).getD []) =
      collect_urls (((some [⟨some ⟨some "http://u"⟩⟩] : Option (List Attachment)).getD []).take 20) :=
  C3_amended_first_20_entries "k" "c" [("c", 5)] none
    (some [⟨some ⟨some "http://u"⟩⟩]) none 5 10 11 (by decide) (by decide) (by decide)

/-- Claim C9 (corrected, counterexample): with a mapped client, empty
text, no attachments, and `pagerMessageId` present but null, the
response id is `"pager:None"` (Python formats the null as "None"), not
`"pager:"` as the claim's "empty string ... including a null one"
requires. -/
theorem C9_counterexample :
    (pager_outbound "k" (some "k")
        ⟨some "message.created", some ⟨some "c"⟩,
         some ⟨none, none, some PVal.null⟩⟩ [("c", 5)] 10 11).result =
      HandlerResult.ok "pager:None" ∧
    HandlerResult.ok "pager:None" ≠ HandlerResult.ok "pager:" := by
  decide

/-- Claim C9 (corrected): with a mapped client, empty trimmed text and no
attachment URLs, nothing is sent and the response id is `"pager:"`
followed by the string rendering of the incoming `pagerMessageId`: the
empty string only when the key is ABSENT (the `.get` default); a
present-but-null value renders as "None". -/
theorem C9_amended_fallback_id (pager_key c : String) (store : Store)
    (t : Option String) (atts : Option (List Attachment)) (pmi : Option PVal)
    (v tid aid : Int)
    (hc : c ≠ "") (hmap : get_chat_id store c = some v) (hv : v ≠ 0)
    (ht : pyStrip (py_or_str t "") = "")
    (hu : collect_urls (atts.getD []) = []) :
    pager_outbound pager_key (some pager_key)
        ⟨some "message.created", some ⟨some c⟩, some ⟨t, atts, pmi⟩⟩ store tid aid =
      ⟨.ok ("pager:" ++ pager_msg_fallback ⟨t, atts, pmi⟩), [], [.lookup c]⟩ ∧
    pager_msg_fallback ⟨t, atts, none⟩ = "" ∧
    pystr PVal.null = "None" := by
  refine ⟨?_, rfl, rfl⟩
  unfold pager_outbound
  simp [hc, hmap, hv, ht, hu, py_not_opt_int, pager_msg_fallback]

theorem C9_witness :
    pager_outbound "k" (some "k")
        ⟨some "message.created", some ⟨some "c"⟩,
         some ⟨none, none, some PVal.null⟩⟩ [("c", 5)] 10 11 =
      ⟨.ok ("pager:" ++ pager_msg_fallback ⟨none, none, some PVal.null⟩), [], [.lookup "c"]⟩ ∧
    pager_msg_fallback ⟨none, none, none⟩ = "" ∧
    pystr PVal.null = "None" :=
  C9_amended_fallback_id "k" "c" [("c", 5)] none none (some PVal.null) 5 10 11
    (by decide) (by decide) (by decide) (by decide) (by decide)

end Pager
